import Mathlib

/-!
Verification development for the spotify-follow-gate repository.

The repository contains three express-route variants of the same OAuth
"follow gate":
  * variant A  : src/server.js lines 1-116  (inline-HTML outcome pages);
  * variant B  : src/server.js lines 117-631 (playlist gating, follow page,
                 /follow action, redirect outcomes);
  * variant U  : src/unnamed/part_000 (redirect-to-URL failure routing).

The handlers are shallowly embedded as pure Lean functions.  Remote HTTP
calls are modelled by an oracle argument supplying each call's outcome, and
every handler additionally returns the ordered list of outbound remote
calls it issued, so that "never attempts the token exchange" and ordering
properties are statable.  Express query values and cookies are modelled by
`QVal` (a string, or JavaScript `undefined`; `null` is included so that the
source's literal `state === null` comparison can be embedded verbatim).
-/

/-- JavaScript value of a query parameter or cookie as seen by the express
handlers: a string, `undefined` (parameter absent), or `null` (never
produced by express for `req.query`/`req.cookies`, but needed to embed the
source's literal `state === null` test). -/
inductive QVal where
  | undefined
  | null
  | str (s : String)
deriving DecidableEq, Repr

/-- JavaScript strict equality (`===` / `!==`) restricted to the value types
that can occur here: `undefined === undefined` and `null === null` are true,
`undefined === null` is false, strings compare by value. This coincides with
structural equality on `QVal`. -/
def strictEq (a b : QVal) : Bool := decide (a = b)

/-- JavaScript truthiness of a query/cookie value: `undefined` and `null`
are falsy, a string is truthy iff it is nonempty. -/
def truthy : QVal → Bool
  | .str s => decide (s ≠ "")
  | _ => false

/-- The error information carried by a rejected axios call (or a thrown
`Error`): `error.response?.status`, `error.response?.data?.error_description`,
`error.response?.data?.error?.message`, and `error.message`. -/
structure RemoteErr where
  status : Option Nat := none
  errorDescription : Option String := none
  dataErrorMessage : Option String := none
  message : String := ""
deriving DecidableEq, Repr

/-- Outcome of one outbound remote call: fulfilled with a value, or rejected
with error information (a thrown axios error). -/
inductive RemoteResult (α : Type) where
  | ok (a : α)
  | err (e : RemoteErr)
deriving DecidableEq, Repr

/-- One outbound remote call, with the parameters the claims talk about.
`tokenExchange` records the `code` form field; the two follow checks record
their `ids` query parameter (for `/playlists/{id}/followers/contains`, `ids`
is the subject user whose follow status is being asked). -/
inductive RemoteCall where
  | tokenExchange (code : QVal)
  | getMe
  | getArtist (artistId : String)
  | checkArtistFollow (ids : String)
  | checkPlaylistFollowers (playlistId : String) (ids : String)
  | putFollowArtist (ids : String)
  | putFollowPlaylist (playlistId : String)
  | getPlaylist (playlistId : String)
deriving DecidableEq, Repr

/-- The environment-derived configuration constants (CLIENT_ID,
CLIENT_SECRET, REDIRECT_URI, ARTIST_ID, PLAYLIST_ID, SUCCESS_REDIRECT_URL,
FAILURE_REDIRECT_URL), immutable for the process lifetime. -/
structure Config where
  clientId : String
  clientSecret : String
  redirectUri : String
  artistId : String
  playlistId : String
  successUrl : String
  failureUrl : String
deriving DecidableEq, Repr

/-- Base url of the remote API (`SPOTIFY_API_URL`). -/
def SPOTIFY_API_URL : String := "https://api.spotify.com/v1"

/-! ## Variant A: src/server.js lines 35-111 -/

/-- Oracle for variant A's `/callback`: the token exchange
(lines 64-75) and the artist follow check (lines 80-88). -/
structure OracleA where
  tokenExchange : RemoteResult String
  checkArtist : RemoteResult Bool
deriving DecidableEq, Repr

/-- Variant A's `/callback` responses (lines 58, 93-96, 98-104, 109):
the state-mismatch redirect, the inline success page, the inline
access-denied page (whose follow link embeds `ARTIST_ID`), and the plain
error text sent from the catch block. -/
inductive AResp where
  | redirect (url : String)
  | successPage
  | deniedPage (artistId : String)
  | errorText
deriving DecidableEq, Repr

/-- Result of one variant A `/callback` request: the response, the ordered
outbound remote calls, and whether the handler cleared the
`spotify_auth_state` cookie (variant A never does). -/
structure AResult where
  clearedCookie : Bool
  response : AResp
  calls : List RemoteCall
deriving DecidableEq, Repr

/-- Variant A `/callback` body (src/server.js lines 52-111).  The state
check is the source's literal `state === null || state !== storedState`
(line 57); note `req.query.state` is a string or `undefined`, never `null`,
and `undefined !== undefined` is false. The handler never calls
`res.clearCookie`. -/
def callbackA (cfg : Config) (code state storedState : QVal)
    (o : OracleA) : AResult :=
  if strictEq state .null || !(strictEq state storedState) then
    ⟨false, .redirect "/#error=state_mismatch", []⟩
  else
    match o.tokenExchange with
    | .err _ => ⟨false, .errorText, [.tokenExchange code]⟩
    | .ok _accessToken =>
      match o.checkArtist with
      | .err _ =>
        ⟨false, .errorText,
          [.tokenExchange code, .checkArtistFollow cfg.artistId]⟩
      | .ok isFollowing =>
        if isFollowing then
          ⟨false, .successPage,
            [.tokenExchange code, .checkArtistFollow cfg.artistId]⟩
        else
          ⟨false, .deniedPage cfg.artistId,
            [.tokenExchange code, .checkArtistFollow cfg.artistId]⟩

/-- Variant A `/login` state generation (src/server.js line 37):
`Math.random().toString(36).substring(7)`.  A double r with 0 < r < 1
renders in base 36 as the string "0." followed by its (shortest) base-36
fraction digits; we model the random double by that digit string.
`substring(7)` then drops the first 7 characters (yielding "" when the
rendering is shorter than 7 characters). -/
def variantA_state (frac36 : String) : String :=
  ("0." ++ frac36).drop 7

/-! ## Variant U: src/unnamed/part_000 lines 54-106 -/

/-- Oracle for variant U's `/callback`: token exchange (lines 66-77) and
artist follow check (lines 82-90). -/
structure OracleU where
  tokenExchange : RemoteResult String
  checkArtist : RemoteResult Bool
deriving DecidableEq, Repr

/-- Variant U's `/callback` responses: every terminal action is a redirect
(lines 60, 96, 99, 104). -/
inductive UResp where
  | redirect (url : String)
deriving DecidableEq, Repr

/-- Result of one variant U `/callback` request. -/
structure UResult where
  clearedCookie : Bool
  response : UResp
  calls : List RemoteCall
deriving DecidableEq, Repr

/-- Variant U `/callback` body (src/unnamed/part_000 lines 54-106).  Same
state check as variant A (line 59); state mismatch, any thrown error, and a
false follow check all redirect to `FAILURE_REDIRECT_URL` (lines 60, 104,
99), a true follow check redirects to `SUCCESS_REDIRECT_URL` (line 96).
Never calls `res.clearCookie`.  With `code` absent, `new URLSearchParams`
serializes the field as the text "undefined" and the exchange is still
attempted. -/
def callbackU (cfg : Config) (code state storedState : QVal)
    (o : OracleU) : UResult :=
  if strictEq state .null || !(strictEq state storedState) then
    ⟨false, .redirect cfg.failureUrl, []⟩
  else
    match o.tokenExchange with
    | .err _ => ⟨false, .redirect cfg.failureUrl, [.tokenExchange code]⟩
    | .ok _accessToken =>
      match o.checkArtist with
      | .err _ =>
        ⟨false, .redirect cfg.failureUrl,
          [.tokenExchange code, .checkArtistFollow cfg.artistId]⟩
      | .ok isFollowing =>
        if isFollowing then
          ⟨false, .redirect cfg.successUrl,
            [.tokenExchange code, .checkArtistFollow cfg.artistId]⟩
        else
          ⟨false, .redirect cfg.failureUrl,
            [.tokenExchange code, .checkArtistFollow cfg.artistId]⟩

/-! ## Variant B: src/server.js lines 117-631 -/

/-- The alphabet used by `generateRandomString`
(src/server.js line 150). -/
def possible : String :=
  "ABCDEFGHIJKLMNOPQRSTUVWXYZabcdefghijklmnopqrstuvwxyz0123456789"

/-- `generateRandomString` (src/server.js lines 148-155): builds a string of
`length` characters, each `possible.charAt(Math.floor(Math.random() * 62))`.
The i-th value of `Math.floor(Math.random() * possible.length)` is modelled
by `rand i : Fin 62` (the floor of a uniform double in [0,1) scaled by 62 is
always in 0..61). -/
def generateRandomString (length : Nat) (rand : Nat → Fin 62) : String :=
  String.mk ((List.range length).map fun i =>
    possible.data.get (Fin.cast (by decide) (rand i)))

/-- Variant B `/login` state (src/server.js line 221):
`generateRandomString(16)`. -/
def loginB_state (rand : Nat → Fin 62) : String :=
  generateRandomString 16 rand

/-- Artist object returned by `GET /artists/{id}` as used by variant B's
callback (src/server.js lines 404-415, 461): `name`, `id`, and
`images[0]?.url`. -/
structure ArtistInfo where
  name : String
  id : String
  imageUrl : Option String
deriving DecidableEq, Repr

/-- Oracle for variant B's `/callback`: token exchange (lines 381-392),
artist lookup (lines 404-408), the two follow checks issued through
`Promise.all` (lines 430-450), and the playlist lookup used by the follow
page (lines 462-466). -/
structure OracleB where
  tokenExchange : RemoteResult String
  artistLookup : RemoteResult ArtistInfo
  checkArtist : RemoteResult Bool
  checkPlaylistFollowers : RemoteResult Bool
  playlistLookup : RemoteResult String
deriving DecidableEq, Repr

/-- JavaScript template-literal stringification of a query value, as in
`/?error=spotify_${error}`. -/
def qvalText : QVal → String
  | .str s => s
  | .null => "null"
  | .undefined => "undefined"

/-- `String.prototype.includes` (used at src/server.js line 614). -/
def jsIncludes (s pat : String) : Bool := decide (pat.data <:+: s.data)

/-- The message of the `Error` thrown when the artist lookup fails
(src/server.js line 425). -/
def invalidArtistMessage (artistId : String) : String :=
  "Invalid artist ID (" ++ artistId ++
    "). Please check the ARTIST_ID in your environment variables."

/-- The `errorMessage` cascade of variant B's callback catch block
(src/server.js lines 613-622). -/
def authErrorMessage (e : RemoteErr) : String :=
  if jsIncludes e.message "Invalid artist ID" then e.message
  else if e.status = some 403 then
    "Authentication failed. Please make sure you are using the correct Spotify account and try again."
  else
    match e.errorDescription with
    | some d => "Authentication failed. " ++ d
    | none => "Authentication failed. " ++ e.message

/-- The TypeError thrown by `code.substring(0, 5)` (src/server.js line 378)
when `code` is `undefined` (node/V8 message text). -/
def typeErrorUndefinedSubstring : RemoteErr :=
  { message := "Cannot read properties of undefined (reading \x27substring\x27)" }

/-- The part of variant B's follow-page HTML template
(src/server.js lines 470-569) that precedes the interpolated access token,
with `artistInfo.name`, `artistImage` and `playlistName` interpolated at
their template positions. -/
def followPagePre (artistName artistImage playlistName : String) : String :=
  "
                <!DOCTYPE html>
                <html>
                <head>
                    <title>Follow " ++ artistName ++ " on Spotify</title>
                    <link href=\"https://fonts.googleapis.com/css2?family=Poppins:wght@400;600;800&display=swap\" rel=\"stylesheet\">
                    <style>
                        body \x7b
                            margin: 0;
                            padding: 0;
                            min-height: 100vh;
                            display: flex;
                            flex-direction: column;
                            align-items: center;
                            justify-content: center;
                            font-family: -apple-system, BlinkMacSystemFont, \x27Segoe UI\x27, Roboto, Oxygen, Ubuntu, Cantarell, \x27Open Sans\x27, \x27Helvetica Neue\x27, sans-serif;
                            background: #000000;
                            color: white;
                            text-align: center;
                        \x7d
                        .container \x7b
                            padding: 2rem;
                            max-width: 800px;
                            width: 90%;
                        \x7d
                        h1 \x7b
                            font-family: \x27Poppins\x27, sans-serif;
                            font-weight: 800;
                            font-size: 3rem;
                            margin-bottom: 1.5rem;
                            color: white;
                            text-transform: uppercase;
                            letter-spacing: 2px;
                        \x7d
                        p \x7b
                            font-size: 1.4rem;
                            margin-bottom: 2.5rem;
                            color: rgba(255, 255, 255, 0.9);
                            font-family: \x27Poppins\x27, sans-serif;
                            font-weight: 400;
                            line-height: 1.6;
                        \x7d
                        .artist-image \x7b
                            width: 500px;
                            height: 500px;
                            margin-bottom: 2.5rem;
                            box-shadow: 0 8px 24px rgba(0,0,0,0.2);
                        \x7d
                        .button \x7b
                            background: #1DB954;
                            color: white;
                            border: none;
                            padding: 1.2rem 3rem;
                            font-size: 1.2rem;
                            font-weight: 600;
                            cursor: pointer;
                            text-decoration: none;
                            display: inline-block;
                            transition: transform 0.2s, background-color 0.2s;
                            text-transform: uppercase;
                            letter-spacing: 1px;
                            font-family: \x27Poppins\x27, sans-serif;
                        \x7d
                        .button:hover \x7b
                            background: #1ed760;
                            transform: translateY(-2px);
                        \x7d
                        #status \x7b
                            margin-top: 1.5rem;
                            font-weight: 500;
                            color: white;
                            font-family: \x27Poppins\x27, sans-serif;
                        \x7d
                        #error \x7b
                            margin-top: 1rem;
                            color: #ff4444;
                            font-weight: 500;
                            font-family: \x27Poppins\x27, sans-serif;
                        \x7d
                    </style>
                </head>
                <body>
                    <div class=\"container\">
                        <img src=\"" ++ artistImage ++ "\" alt=\"" ++ artistName ++ "\" class=\"artist-image\">
                        <h1>ONE MORE STEP...</h1>
                        <p>Follow " ++ artistName ++ " and their playlist \"" ++ playlistName ++ "\" on Spotify to access your free download</p>
                        <button onclick=\"followBoth()\" class=\"button\">Follow Now</button>
                        <div id=\"status\"></div>
                        <div id=\"error\"></div>
                    </div>

                    <script>
                    async function followBoth() \x7b
                        const status = document.getElementById(\x27status\x27);
                        const error = document.getElementById(\x27error\x27);
                        status.textContent = \x27Following...\x27;
                        error.textContent = \x27\x27;
                        
                        try \x7b
                            const response = await fetch(\x27/follow?access_token="

/-- The part of variant B's follow-page HTML template
(src/server.js lines 569-594) that follows the interpolated access token,
with `SUCCESS_REDIRECT_URL` interpolated at its template position. -/
def followPagePost (successUrl : String) : String :=
  "\x27);
                            if (!response.ok) \x7b
                                const errorData = await response.json();
                                throw new Error(errorData.details || errorData.error || \x27Failed to follow\x27);
                            \x7d
                            const data = await response.json();
                            
                            if (data.success) \x7b
                                status.textContent = \x27Successfully followed! Redirecting...\x27;
                                error.textContent = \x27\x27;
                                setTimeout(() => \x7b
                                    window.location.href = \x27" ++ successUrl ++ "\x27;
                                \x7d, 1500);
                            \x7d else \x7b
                                throw new Error(data.error || \x27Failed to follow\x27);
                            \x7d
                        \x7d catch (err) \x7b
                            console.error(\x27Follow error:\x27, err);
                            status.textContent = \x27\x27;
                            error.textContent = \x27Error: \x27 + err.message;
                        \x7d
                    \x7d
                    </script>
                </body>
                </html>
            "

/-- Variant B's complete follow-page HTML (src/server.js lines 470-594):
the access token is interpolated into the page's `/follow` fetch URL
(line 569). -/
def followPageHtml (artistName artistImage playlistName accessToken
    successUrl : String) : String :=
  followPagePre artistName artistImage playlistName ++ accessToken ++
    followPagePost successUrl

/-- Variant B `/callback` responses (src/server.js lines 359, 365, 458,
470-594, 624): the provider-error redirect `/?error=spotify_${error}`, the
state-mismatch redirect, the success redirect to `SUCCESS_REDIRECT_URL`,
the follow page, and the catch-all redirect
`/?error=auth_error&details=...` carrying the (un-encoded) details
string. -/
inductive BResp where
  | redirectSpotifyError (err : String)
  | redirectStateMismatch
  | redirectSuccess (url : String)
  | followPage (html : String)
  | redirectAuthError (details : String)
deriving DecidableEq, Repr

/-- Result of one variant B `/callback` request. -/
structure BResult where
  clearedCookie : Bool
  response : BResp
  calls : List RemoteCall
deriving DecidableEq, Repr

/-- The `try` block of variant B's callback once a string `code` is in hand
(src/server.js lines 378-595) together with the catch block (597-625):
token exchange, artist lookup (failure is rethrown as the invalid-artist
error), the two follow checks issued together via `Promise.all` (modelled
by consulting the artist check's rejection first), the AND gate, and on the
not-satisfied branch the playlist lookup followed by the follow page. -/
def callbackBExchange (cfg : Config) (c : String) (o : OracleB) :
    BResp × List RemoteCall :=
  match o.tokenExchange with
  | .err e => (.redirectAuthError (authErrorMessage e), [.tokenExchange (.str c)])
  | .ok accessToken =>
    match o.artistLookup with
    | .err _ =>
      (.redirectAuthError
          (authErrorMessage { message := invalidArtistMessage cfg.artistId }),
        [.tokenExchange (.str c), .getArtist cfg.artistId])
    | .ok artistInfo =>
      let baseCalls : List RemoteCall :=
        [.tokenExchange (.str c), .getArtist cfg.artistId,
          .checkArtistFollow cfg.artistId,
          .checkPlaylistFollowers cfg.playlistId artistInfo.id]
      match o.checkArtist, o.checkPlaylistFollowers with
      | .err e, _ => (.redirectAuthError (authErrorMessage e), baseCalls)
      | .ok _, .err e => (.redirectAuthError (authErrorMessage e), baseCalls)
      | .ok isFollowingArtist, .ok isFollowingPlaylist =>
        if isFollowingArtist && isFollowingPlaylist then
          (.redirectSuccess cfg.successUrl, baseCalls)
        else
          match o.playlistLookup with
          | .err e =>
            (.redirectAuthError (authErrorMessage e),
              baseCalls ++ [.getPlaylist cfg.playlistId])
          | .ok playlistName =>
            (.followPage
                (followPageHtml artistInfo.name (artistInfo.imageUrl.getD "")
                  playlistName accessToken cfg.successUrl),
              baseCalls ++ [.getPlaylist cfg.playlistId])

/-- Branching of variant B's `/callback` after the unconditional
`clearCookie` (src/server.js lines 357-625): provider error check, truthy
state check, then the try block.  When `code` is not a string,
`code.substring(0, 5)` (line 378) throws before the token exchange and the
catch block turns the TypeError into the auth-error redirect. -/
def callbackBBody (cfg : Config) (code state storedState errq : QVal)
    (o : OracleB) : BResp × List RemoteCall :=
  if truthy errq then
    (.redirectSpotifyError (qvalText errq), [])
  else if !truthy state || !truthy storedState || !(strictEq state storedState) then
    (.redirectStateMismatch, [])
  else
    match code with
    | .str c => callbackBExchange cfg c o
    | _ => (.redirectAuthError (authErrorMessage typeErrorUndefinedSubstring), [])

/-- Variant B `/callback` (src/server.js lines 340-626): clears the
`spotify_auth_state` cookie unconditionally (line 354) before any
branching. -/
def callbackB (cfg : Config) (code state storedState errq : QVal)
    (o : OracleB) : BResult :=
  let rc := callbackBBody cfg code state storedState errq o
  ⟨true, rc.1, rc.2⟩

/-! ## Variant B `/follow` handler (src/server.js lines 234-338) -/

/-- Oracle for the `/follow` handler: the identity probe `GET /me`
(lines 245-249, yielding `userResponse.data.id`), the artist and playlist
follow mutations (lines 256-267, 271-278), and the two re-check queries
issued via `Promise.all` (lines 282-302). -/
structure FollowOracle where
  me : RemoteResult String
  putArtist : RemoteResult Unit
  putPlaylist : RemoteResult Unit
  checkArtist : RemoteResult Bool
  checkPlaylist : RemoteResult Bool
deriving DecidableEq, Repr

/-- `/follow` responses: 400 `No access token provided` (lines 238-240),
`{success: true}` (line 306), 500 `Failed to verify follows` (lines
308-313), and the catch block's `Failed to follow` JSON with status
`error.response?.status || 500` and the details cascade (lines 314-337). -/
inductive FollowResp where
  | noToken
  | success
  | verifyFailed
  | followFailed (status : Nat) (details : String)
deriving DecidableEq, Repr

/-- Result of one `/follow` request: the response, the ordered outbound
calls, and the `console.error(\x27Follow error:\x27, ...)` diagnostic record
(endpoint = `error.config?.url`, plus the error fields), when the catch
block ran. -/
structure FollowResult where
  response : FollowResp
  calls : List RemoteCall
  errorLog : Option (String × RemoteErr) := none
deriving DecidableEq, Repr

/-- The `details` string of the `/follow` catch block
(src/server.js lines 322-331). -/
def followDetails (e : RemoteErr) : String :=
  "Failed to follow. " ++
    (if e.status = some 401 then
      "Your session has expired. Please log in again."
    else if e.status = some 403 then
      "Permission denied. Please make sure you approved all permissions."
    else
      match e.dataErrorMessage with
      | some m => m
      | none => e.message)

/-- The `/follow` catch block (src/server.js lines 314-337): logs the
failing endpoint and error, and answers with status
`error.response?.status || 500` and the details cascade. -/
def followCatch (e : RemoteErr) (endpoint : String)
    (calls : List RemoteCall) : FollowResult :=
  { response := .followFailed (e.status.getD 500) (followDetails e),
    calls := calls,
    errorLog := some (endpoint, e) }

/-- The `/follow` handler (src/server.js lines 234-338): rejects a falsy
`access_token` with 400; otherwise probes `GET /me`, follows the artist
(`PUT /me/following?type=artist&ids=ARTIST_ID`), follows the playlist
(`PUT /playlists/{PLAYLIST_ID}/followers`), re-checks both follows via
`Promise.all` (artist: `GET /me/following/contains`; playlist:
`GET /playlists/{PLAYLIST_ID}/followers/contains?ids=` the authenticated
user's own id), and answers `{success: true}` iff both re-checks are true,
else the 500 verification failure.  The sequential `await`s mean any
rejection jumps straight to the catch block, skipping the remaining
calls. -/
def followHandler (cfg : Config) (access_token : QVal)
    (o : FollowOracle) : FollowResult :=
  if !truthy access_token then
    { response := .noToken, calls := [] }
  else
    match o.me with
    | .err e => followCatch e (SPOTIFY_API_URL ++ "/me") [.getMe]
    | .ok userId =>
      match o.putArtist with
      | .err e =>
        followCatch e (SPOTIFY_API_URL ++ "/me/following")
          [.getMe, .putFollowArtist cfg.artistId]
      | .ok _ =>
        match o.putPlaylist with
        | .err e =>
          followCatch e
            (SPOTIFY_API_URL ++ "/playlists/" ++ cfg.playlistId ++ "/followers")
            [.getMe, .putFollowArtist cfg.artistId,
              .putFollowPlaylist cfg.playlistId]
        | .ok _ =>
          let calls : List RemoteCall :=
            [.getMe, .putFollowArtist cfg.artistId,
              .putFollowPlaylist cfg.playlistId,
              .checkArtistFollow cfg.artistId,
              .checkPlaylistFollowers cfg.playlistId userId]
          match o.checkArtist, o.checkPlaylist with
          | .err e, _ =>
            followCatch e (SPOTIFY_API_URL ++ "/me/following/contains") calls
          | .ok _, .err e =>
            followCatch e
              (SPOTIFY_API_URL ++ "/playlists/" ++ cfg.playlistId ++
                "/followers/contains")
              calls
          | .ok artistFollow, .ok playlistFollow =>
            if artistFollow && playlistFollow then
              { response := .success, calls := calls }
            else
              { response := .verifyFailed, calls := calls }

/-! ## Example configuration and helper lemmas -/

/-- A concrete deployment configuration used by the concrete evaluations
below. -/
def cfgEx : Config :=
  { clientId := "client-id-1",
    clientSecret := "client-secret-1",
    redirectUri := "https://gate.example.com/callback",
    artistId := "artistid123",
    playlistId := "22UjtzmKbo9WLSLqfvx2PR",
    successUrl := "https://example.com/success",
    failureUrl := "https://example.com/failure" }

theorem string_data_append (a b : String) : (a ++ b).data = a.data ++ b.data := rfl

theorem mid_infix (a b c : String) : b.data <:+: (a ++ b ++ c).data :=
  ⟨a.data, c.data, by rw [string_data_append, string_data_append]⟩

theorem accessToken_infix_followPage (n i pl tok su : String) :
    tok.data <:+: (followPageHtml n i pl tok su).data := by
  unfold followPageHtml
  exact mid_infix _ _ _

theorem possible_alphanum : ∀ c ∈ possible.data, c.isAlphanum = true := by decide

/-! ## Claims -/

/-- C1 (code bug evaluation): in variant A, a `/callback` request with the
`state` query parameter and the `spotify_auth_state` cookie both absent
(`undefined`) passes the line-57 check (`state === null` is false and
`undefined !== undefined` is false), so the handler proceeds to the token
exchange instead of failing with the state-mismatch redirect. -/
theorem callbackA_absent_state_reaches_token_exchange :
    (callbackA cfgEx (.str "abc") .undefined .undefined
        ⟨.ok "token-1", .ok true⟩).calls.head? =
      some (.tokenExchange (.str "abc")) ∧
    (callbackA cfgEx (.str "abc") .undefined .undefined
        ⟨.ok "token-1", .ok true⟩).response ≠
      .redirect "/#error=state_mismatch" := by decide

/-- C2 (code bug evaluation): in variant B's callback, the
`/playlists/{id}/followers/contains` follow check passes the looked-up
artist's own id (`artistInfo.id`) as its `ids` subject parameter, and the
handler never queries `/me` for the authenticated user's id — so the query
asks whether the artist follows the playlist, not whether the current user
does. -/
theorem callbackB_playlist_check_subject_is_artist_id :
    (callbackB cfgEx (.str "code0") (.str "state0") (.str "state0") .undefined
        ⟨.ok "tok-1", .ok ⟨"Artist Name", "artist-user-id", some "https://img/x.jpg"⟩,
          .ok true, .ok true, .ok "Playlist Name"⟩).calls =
      [.tokenExchange (.str "code0"), .getArtist cfgEx.artistId,
        .checkArtistFollow cfgEx.artistId,
        .checkPlaylistFollowers cfgEx.playlistId "artist-user-id"] ∧
    RemoteCall.getMe ∉
      (callbackB cfgEx (.str "code0") (.str "state0") (.str "state0") .undefined
        ⟨.ok "tok-1", .ok ⟨"Artist Name", "artist-user-id", some "https://img/x.jpg"⟩,
          .ok true, .ok true, .ok "Playlist Name"⟩).calls := by decide

/-- C3: the gating decision is an AND-reduction over the configured
resources: variant B's callback redirects to the success URL iff both the
artist and the playlist checks returned true, the `/follow` handler answers
`{success: true}` iff both re-checks returned true, and variant U's
single-resource callback redirects to the success URL iff the artist check
returned true. -/
theorem gate_iff_all_followed (cfg : Config) (c s tok uid plName : String)
    (art : ArtistInfo) (a p f : Bool)
    (hs : s ≠ "") (htok : tok ≠ "") (hurl : cfg.failureUrl ≠ cfg.successUrl) :
    ((callbackB cfg (.str c) (.str s) (.str s) .undefined
        ⟨.ok tok, .ok art, .ok a, .ok p, .ok plName⟩).response =
      .redirectSuccess cfg.successUrl ↔ (a = true ∧ p = true)) ∧
    ((followHandler cfg (.str tok)
        ⟨.ok uid, .ok (), .ok (), .ok a, .ok p⟩).response = .success ↔
      (a = true ∧ p = true)) ∧
    ((callbackU cfg (.str c) (.str s) (.str s) ⟨.ok tok, .ok f⟩).response =
      .redirect cfg.successUrl ↔ f = true) := by
  cases a <;> cases p <;> cases f <;>
    simp [callbackB, callbackBBody, callbackBExchange, callbackU,
      followHandler, truthy, strictEq, hs, htok, hurl]

/-- C3 witness: concrete evaluation with artist = true, playlist = false
(gate not satisfied) and a single-resource follow = true. -/
theorem gate_iff_all_followed_witness :
    (("state1" : String) ≠ "" ∧ ("tok1" : String) ≠ "" ∧
      cfgEx.failureUrl ≠ cfgEx.successUrl) ∧
    (((callbackB cfgEx (.str "c1") (.str "state1") (.str "state1") .undefined
        ⟨.ok "tok1", .ok ⟨"A", "aid", none⟩, .ok true, .ok false, .ok "P"⟩).response =
      .redirectSuccess cfgEx.successUrl ↔ (true = true ∧ false = true)) ∧
    ((followHandler cfgEx (.str "tok1")
        ⟨.ok "uid1", .ok (), .ok (), .ok true, .ok false⟩).response = .success ↔
      (true = true ∧ false = true)) ∧
    ((callbackU cfgEx (.str "c1") (.str "state1") (.str "state1")
        ⟨.ok "tok1", .ok true⟩).response =
      .redirect cfgEx.successUrl ↔ true = true)) :=
  ⟨⟨by decide, by decide, by decide⟩,
    gate_iff_all_followed cfgEx "c1" "state1" "tok1" "uid1" "P" ⟨"A", "aid", none⟩
      true false true (by decide) (by decide) (by decide)⟩

/-- C4: the `/follow` handler executes, in order, the `/me` identity probe,
the artist follow mutation, the playlist follow mutation, and the two
re-check queries; when every mutation succeeded it answers `{success: true}`
iff both re-checks are true, and otherwise answers the 500
`Failed to verify follows` error even though the mutations succeeded. -/
theorem followHandler_probe_subscribe_recheck (cfg : Config) (tok uid : String)
    (a p : Bool) (htok : tok ≠ "") :
    (followHandler cfg (.str tok)
        ⟨.ok uid, .ok (), .ok (), .ok a, .ok p⟩).calls =
      [.getMe, .putFollowArtist cfg.artistId, .putFollowPlaylist cfg.playlistId,
        .checkArtistFollow cfg.artistId,
        .checkPlaylistFollowers cfg.playlistId uid] ∧
    ((followHandler cfg (.str tok)
        ⟨.ok uid, .ok (), .ok (), .ok a, .ok p⟩).response = .success ↔
      (a = true ∧ p = true)) ∧
    (¬(a = true ∧ p = true) →
      (followHandler cfg (.str tok)
        ⟨.ok uid, .ok (), .ok (), .ok a, .ok p⟩).response = .verifyFailed) := by
  cases a <;> cases p <;> simp [followHandler, truthy, htok]

/-- C4 witness: concrete evaluation with both mutations succeeding but the
playlist re-check false. -/
theorem followHandler_probe_subscribe_recheck_witness :
    (("tokX" : String) ≠ "") ∧
    ((followHandler cfgEx (.str "tokX")
        ⟨.ok "uidX", .ok (), .ok (), .ok true, .ok false⟩).calls =
      [.getMe, .putFollowArtist cfgEx.artistId,
        .putFollowPlaylist cfgEx.playlistId,
        .checkArtistFollow cfgEx.artistId,
        .checkPlaylistFollowers cfgEx.playlistId "uidX"] ∧
    ((followHandler cfgEx (.str "tokX")
        ⟨.ok "uidX", .ok (), .ok (), .ok true, .ok false⟩).response = .success ↔
      (true = true ∧ false = true)) ∧
    (¬(true = true ∧ false = true) →
      (followHandler cfgEx (.str "tokX")
        ⟨.ok "uidX", .ok (), .ok (), .ok true, .ok false⟩).response =
        .verifyFailed)) :=
  ⟨by decide,
    followHandler_probe_subscribe_recheck cfgEx "tokX" "uidX" true false
      (by decide)⟩

/-- C5 counterexample: when the artist follow mutation fails, the playlist
follow mutation is never attempted — refuting the claim that Subscribe
attempts the mutation for all configured resources even when an earlier
mutation in the set fails. -/
theorem subscribe_does_not_attempt_all :
    (followHandler cfgEx (.str "tok-c5")
        ⟨.ok "user-1", .err { status := some 403, message := "Forbidden" },
          .ok (), .ok true, .ok true⟩).calls =
      [.getMe, .putFollowArtist cfgEx.artistId] ∧
    RemoteCall.putFollowPlaylist cfgEx.playlistId ∉
      (followHandler cfgEx (.str "tok-c5")
        ⟨.ok "user-1", .err { status := some 403, message := "Forbidden" },
          .ok (), .ok true, .ok true⟩).calls := by decide

/-- C5 (amended): the follow mutations are sequential and short-circuit at
the first failure: an artist-mutation failure stops before the playlist
mutation, a playlist-mutation failure leaves the already-performed artist
mutation in place with no further (in particular no undoing) call, and in
both cases the whole operation fails with the `Failed to follow` JSON error
while the failing endpoint and remote error are recorded in the diagnostic
log. -/
theorem subscribe_short_circuits (cfg : Config) (tok uid : String)
    (e₁ e₂ : RemoteErr) (htok : tok ≠ "") :
    (followHandler cfg (.str tok)
        ⟨.ok uid, .err e₁, .ok (), .ok true, .ok true⟩ =
      { response := .followFailed (e₁.status.getD 500) (followDetails e₁),
        calls := [.getMe, .putFollowArtist cfg.artistId],
        errorLog := some (SPOTIFY_API_URL ++ "/me/following", e₁) }) ∧
    (followHandler cfg (.str tok)
        ⟨.ok uid, .ok (), .err e₂, .ok true, .ok true⟩ =
      { response := .followFailed (e₂.status.getD 500) (followDetails e₂),
        calls := [.getMe, .putFollowArtist cfg.artistId,
          .putFollowPlaylist cfg.playlistId],
        errorLog := some
          (SPOTIFY_API_URL ++ "/playlists/" ++ cfg.playlistId ++ "/followers",
            e₂) }) := by
  simp [followHandler, truthy, htok, followCatch]

/-- C5 witness: concrete evaluation of both short-circuit shapes. -/
theorem subscribe_short_circuits_witness :
    (("tok-w5" : String) ≠ "") ∧
    ((followHandler cfgEx (.str "tok-w5")
        ⟨.ok "uid-w5", .err { status := some 401, message := "Unauthorized" },
          .ok (), .ok true, .ok true⟩ =
      { response := .followFailed
          (({ status := some 401, message := "Unauthorized" } : RemoteErr).status.getD 500)
          (followDetails { status := some 401, message := "Unauthorized" }),
        calls := [.getMe, .putFollowArtist cfgEx.artistId],
        errorLog := some (SPOTIFY_API_URL ++ "/me/following",
          { status := some 401, message := "Unauthorized" }) }) ∧
    (followHandler cfgEx (.str "tok-w5")
        ⟨.ok "uid-w5", .ok (), .err { message := "network down" },
          .ok true, .ok true⟩ =
      { response := .followFailed
          (({ message := "network down" } : RemoteErr).status.getD 500)
          (followDetails { message := "network down" }),
        calls := [.getMe, .putFollowArtist cfgEx.artistId,
          .putFollowPlaylist cfgEx.playlistId],
        errorLog := some
          (SPOTIFY_API_URL ++ "/playlists/" ++ cfgEx.playlistId ++ "/followers",
            { message := "network down" }) })) :=
  ⟨by decide,
    subscribe_short_circuits cfgEx "tok-w5" "uid-w5"
      { status := some 401, message := "Unauthorized" }
      { message := "network down" } (by decide)⟩

/-- C6 counterexample: in variant U, a `/callback` with matching state and
absent `code` still attempts the token exchange (with the absent code) and
then fails through the generic catch redirect — refuting the claim that a
missing `code` fails with MissingCode before any token-exchange call. -/
theorem missing_code_still_exchanges :
    (callbackU cfgEx .undefined (.str "xyz") (.str "xyz")
        ⟨.err { message := "invalid_grant" }, .ok true⟩).calls =
      [.tokenExchange .undefined] ∧
    (callbackU cfgEx .undefined (.str "xyz") (.str "xyz")
        ⟨.err { message := "invalid_grant" }, .ok true⟩).response =
      .redirect cfgEx.failureUrl := by decide

/-- C6 (amended): no variant has a MissingCode failure. In variant B a
missing `code` makes `code.substring(0, 5)` throw before the exchange, so
the handler answers the generic auth-error redirect without any outbound
call; in variant U the handler attempts the token exchange with the absent
code and fails only through the generic catch redirect to the failure
URL. -/
theorem missing_code_behavior (cfg : Config) (s : String) (e : RemoteErr)
    (b : Bool) (oB : OracleB) (hs : s ≠ "") :
    (callbackB cfg .undefined (.str s) (.str s) .undefined oB =
      ⟨true,
        .redirectAuthError
          ("Authentication failed. " ++ typeErrorUndefinedSubstring.message),
        []⟩) ∧
    (callbackU cfg .undefined (.str s) (.str s) ⟨.err e, .ok b⟩ =
      ⟨false, .redirect cfg.failureUrl, [.tokenExchange .undefined]⟩) := by
  have hmsg : authErrorMessage typeErrorUndefinedSubstring =
      "Authentication failed. " ++ typeErrorUndefinedSubstring.message := by decide
  constructor
  · simp [callbackB, callbackBBody, truthy, strictEq, hs, hmsg]
  · simp [callbackU, truthy, strictEq, hs]

/-- C6 witness: concrete evaluation of both variants with the code
absent. -/
theorem missing_code_behavior_witness :
    (("st6" : String) ≠ "") ∧
    ((callbackB cfgEx .undefined (.str "st6") (.str "st6") .undefined
        ⟨.ok "t", .ok ⟨"A", "aid", none⟩, .ok true, .ok true, .ok "P"⟩ =
      ⟨true,
        .redirectAuthError
          ("Authentication failed. " ++ typeErrorUndefinedSubstring.message),
        []⟩) ∧
    (callbackU cfgEx .undefined (.str "st6") (.str "st6")
        ⟨.err { message := "invalid_request" }, .ok false⟩ =
      ⟨false, .redirect cfgEx.failureUrl, [.tokenExchange .undefined]⟩)) :=
  ⟨by decide,
    missing_code_behavior cfgEx "st6" { message := "invalid_request" } false
      ⟨.ok "t", .ok ⟨"A", "aid", none⟩, .ok true, .ok true, .ok "P"⟩
      (by decide)⟩

/-- C7 counterexample: with `Math.random()` returning 0.5 (base-36
rendering "0.i"), variant A's `/login` stores the state
`"0.i".substring(7) = ""` — length 0, refuting the claim that every stored
state has length at least 16. -/
theorem variantA_state_can_be_empty :
    variantA_state "i" = "" ∧ (variantA_state "i").length < 16 := by decide

/-- C7 (amended): variant B's `/login` state (`generateRandomString(16)`)
is exactly 16 characters, all drawn from the alphanumeric alphabet; the
≥ 16 guarantee fails for variants A and U, whose
`Math.random().toString(36).substring(7)` state can be shorter (even
empty). -/
theorem loginB_state_alphanumeric_16 (rand : Nat → Fin 62) :
    (loginB_state rand).length = 16 ∧
    ∀ ch ∈ (loginB_state rand).data, ch.isAlphanum = true := by
  constructor
  · show (String.mk _).data.length = 16
    simp
  · intro ch hch
    simp only [loginB_state, generateRandomString, String.data, List.mem_map] at hch
    obtain ⟨i, _, rfl⟩ := hch
    exact possible_alphanum _ (List.get_mem _ _ _)

/-- C8 counterexample: a successful variant A `/callback` leaves the
`spotify_auth_state` cookie set — refuting the claim that every terminal
outcome of `/callback` clears the anti-forgery cookie. -/
theorem callbackA_leaves_cookie :
    (callbackA cfgEx (.str "c") (.str "s") (.str "s")
        ⟨.ok "t", .ok true⟩).clearedCookie = false := by decide

/-- C8 (amended): variant B's `/callback` clears the anti-forgery cookie
unconditionally on every terminal outcome, but variants A and U never clear
it, so their `/callback` responses always leave the cookie set. -/
theorem callback_cookie_clearing (cfg : Config) (code state stored errq : QVal)
    (oB : OracleB) (oA : OracleA) (oU : OracleU) :
    (callbackB cfg code state stored errq oB).clearedCookie = true ∧
    (callbackA cfg code state stored oA).clearedCookie = false ∧
    (callbackU cfg code state stored oU).clearedCookie = false := by
  refine ⟨rfl, ?_, ?_⟩
  · unfold callbackA
    split
    · rfl
    · cases oA.tokenExchange with
      | err e => rfl
      | ok t =>
        cases oA.checkArtist with
        | err e => rfl
        | ok f => cases f <;> rfl
  · unfold callbackU
    split
    · rfl
    · cases oU.tokenExchange with
      | err e => rfl
      | ok t =>
        cases oU.checkArtist with
        | err e => rfl
        | ok f => cases f <;> rfl

/-- C9 counterexample: the follow page rendered by variant B's `/callback`
embeds the bearer access token in its HTML body (inside the page's
`/follow` fetch URL) — refuting the claim that the access token never
occurs as a substring of any server output. -/
theorem followPage_contains_token :
    (callbackB cfgEx (.str "c9") (.str "s9") (.str "s9") .undefined
        ⟨.ok "BQh-secret-bearer-token",
          .ok ⟨"Artist", "aid", some "https://img/a.jpg"⟩,
          .ok true, .ok false, .ok "My Playlist"⟩).response =
      .followPage (followPageHtml "Artist" "https://img/a.jpg" "My Playlist"
        "BQh-secret-bearer-token" cfgEx.successUrl) ∧
    ("BQh-secret-bearer-token" : String).data <:+:
      (followPageHtml "Artist" "https://img/a.jpg" "My Playlist"
        "BQh-secret-bearer-token" cfgEx.successUrl).data := by
  constructor
  · rfl
  · exact accessToken_infix_followPage _ _ _ _ _

/-- C9 (amended): whenever variant B's `/callback` reaches the
not-yet-following branch it responds with the follow page, and the bearer
access token always occurs as a substring of that page's HTML (it is
interpolated into the page's `/follow` fetch URL) — so the
no-credential-in-output property fails for the access token. -/
theorem followPage_embeds_access_token (cfg : Config) (c s tok plName : String)
    (art : ArtistInfo) (hs : s ≠ "") :
    (callbackB cfg (.str c) (.str s) (.str s) .undefined
        ⟨.ok tok, .ok art, .ok true, .ok false, .ok plName⟩).response =
      .followPage (followPageHtml art.name (art.imageUrl.getD "") plName tok
        cfg.successUrl) ∧
    tok.data <:+:
      (followPageHtml art.name (art.imageUrl.getD "") plName tok
        cfg.successUrl).data := by
  constructor
  · simp [callbackB, callbackBBody, callbackBExchange, truthy, strictEq, hs]
  · exact accessToken_infix_followPage _ _ _ _ _

/-- C9 witness: concrete evaluation of the not-yet-following branch. -/
theorem followPage_embeds_access_token_witness :
    (("s9w" : String) ≠ "") ∧
    ((callbackB cfgEx (.str "c9w") (.str "s9w") (.str "s9w") .undefined
        ⟨.ok "tok9w", .ok ⟨"B", "bid", none⟩, .ok true, .ok false, .ok "PL"⟩).response =
      .followPage (followPageHtml (ArtistInfo.mk "B" "bid" none).name
        ((ArtistInfo.mk "B" "bid" none).imageUrl.getD "") "PL" "tok9w"
        cfgEx.successUrl) ∧
    ("tok9w" : String).data <:+:
      (followPageHtml (ArtistInfo.mk "B" "bid" none).name
        ((ArtistInfo.mk "B" "bid" none).imageUrl.getD "") "PL" "tok9w"
        cfgEx.successUrl).data) :=
  ⟨by decide,
    followPage_embeds_access_token cfgEx "c9w" "s9w" "tok9w" "PL"
      ⟨"B", "bid", none⟩ (by decide)⟩

/-- C10: in the redirect variant (variant U), state mismatch, any error
thrown during the token exchange or follow check, and a successful check
reporting not-following all produce the identical response: a redirect to
the configured failure URL. -/
theorem callbackU_uniform_failure (cfg : Config) (code state stored : QVal)
    (tok : String) (e e' : RemoteErr) (o : OracleU) :
    ((strictEq state .null || !(strictEq state stored)) = true →
      (callbackU cfg code state stored o).response = .redirect cfg.failureUrl) ∧
    ((callbackU cfg code state stored ⟨.err e, o.checkArtist⟩).response =
      .redirect cfg.failureUrl) ∧
    ((callbackU cfg code state stored ⟨.ok tok, .err e'⟩).response =
      .redirect cfg.failureUrl) ∧
    ((callbackU cfg code state stored ⟨.ok tok, .ok false⟩).response =
      .redirect cfg.failureUrl) := by
  refine ⟨?_, ?_, ?_, ?_⟩
  · intro h
    simp [callbackU, h]
  · unfold callbackU
    split
    · rfl
    · rfl
  · unfold callbackU
    split
    · rfl
    · rfl
  · unfold callbackU
    split
    · rfl
    · rfl

/-- C10 witness: concrete evaluation of the three indistinguishable
cases. -/
theorem callbackU_uniform_failure_witness :
    ((strictEq (.str "sa") .null || !(strictEq (.str "sa") (.str "sb"))) = true) ∧
    (((strictEq (.str "sa") QVal.null || !(strictEq (.str "sa") (.str "sb"))) = true →
      (callbackU cfgEx (.str "cw") (.str "sa") (.str "sb")
        ⟨.ok "tw", .ok true⟩).response = .redirect cfgEx.failureUrl) ∧
    ((callbackU cfgEx (.str "cw") (.str "sa") (.str "sb")
        ⟨.err { message := "boom" },
          (⟨.ok "tw", .ok true⟩ : OracleU).checkArtist⟩).response =
      .redirect cfgEx.failureUrl) ∧
    ((callbackU cfgEx (.str "cw") (.str "sa") (.str "sb")
        ⟨.ok "tw", .err { message := "boom2" }⟩).response =
      .redirect cfgEx.failureUrl) ∧
    ((callbackU cfgEx (.str "cw") (.str "sa") (.str "sb")
        ⟨.ok "tw", .ok false⟩).response = .redirect cfgEx.failureUrl)) :=
  ⟨by decide,
    callbackU_uniform_failure cfgEx (.str "cw") (.str "sa") (.str "sb") "tw"
      { message := "boom" } { message := "boom2" } ⟨.ok "tw", .ok true⟩⟩
